import Mathlib

/-!
Verification of the request-dispatch core of the `rustnext` repository:
the route-template compiler and matcher (`src/router.rs`), the Router with
its middleware chain, the App dispatcher (`src/app.rs`) and the RateLimiter
middleware (`src/middleware/auth_guard.rs`).

Modelling conventions:
* `hyper::Method` is an enumeration `Method`.
* Strings and `HashMap`s are modelled over Lean `String`; a `HashMap` built
  by successive `insert` calls is represented by its insertion sequence
  (a `List (String × String)`), observed through `lookupLast`, which returns
  the value of the latest insertion for a key — exactly `HashMap::get` after
  those inserts.  A hyper `HeaderMap` is observed through `headerGet`, which
  returns the first value for a name, as `HeaderMap::get` does.
* The compiled regex of a route is modelled by the token list the compiler
  emits: each escaped or plain literal character is a `PatTok.lit`, each
  `([^/]+)` group is `PatTok.seg`, each `(.*)` group is `PatTok.wild`;
  the `^`/`$` anchors are reflected by `matchToks` consuming the whole path.
  The `regex` crate's leftmost-first (greedy, backtracking-priority)
  semantics is implemented by trying longer captures first.
* Async execution carries no concurrency in any claim considered here, so
  handlers are pure state transformers on an execution trace
  (`List String`), and fallible results are `Except DynError Response`
  mirroring `Result<Response, Box<dyn Error + Send + Sync>>`.
-/

inductive Method where
  | GET
  | POST
  | PUT
  | DELETE
  | OPTIONS
deriving DecidableEq, Repr

/-- Model of `AppError` from `src/error.rs` (the `Custom` variant carries the numeric
status code). -/
inductive AppError where
  | NotFound (msg : String)
  | Internal (msg : String)
  | BadRequest (msg : String)
  | Unauthorized (msg : String)
  | Forbidden (msg : String)
  | Custom (status : Nat) (msg : String)
deriving DecidableEq, Repr

/-- Model of `Box<dyn Error + Send + Sync>`: either a boxed `AppError` (downcastable)
or some other error, known only by its display string. -/
inductive DynError where
  | app (e : AppError)
  | other (msg : String)
deriving DecidableEq, Repr

deriving instance DecidableEq for Except

/-- Model of `impl From<Box<dyn Error>> for AppError` in `src/error.rs`: downcast to
`AppError` when possible, otherwise wrap the display string in `Internal`. -/
def toAppError : DynError → AppError
  | DynError.app e => e
  | DynError.other s => AppError.Internal s

/-- Model of `HashMap::get` after a sequence of `insert`s: the latest insertion for
the key wins. -/
def lookupLast (l : List (String × String)) (k : String) : Option String :=
  (l.reverse.find? (fun p => p.1 = k)).map (fun p => p.2)

/-- Model of `hyper::HeaderMap::get`: the first value recorded for the name.
Header names are taken already normalized (lowercase), and header values are
assumed to be valid visible-ASCII so `to_str()` succeeds. -/
def headerGet (hs : List (String × String)) (k : String) : Option String :=
  (hs.find? (fun p => p.1 = k)).map (fun p => p.2)

/-- Model of `Response` from `src/response.rs`: status, headers (a `HashMap` modelled
as its insertion sequence) and body (a UTF-8 `hyper::Body`). -/
structure Response where
  status : Nat
  headers : List (String × String)
  body : String
deriving DecidableEq, Repr

def Response.new : Response := { status := 200, headers := [], body := "" }

/-- Model of `Response::status` (named `setStatus` as Lean does not allow a method
shadowing the field). -/
def Response.setStatus (r : Response) (s : Nat) : Response :=
  { r with status := s }

/-- Model of `Response::header`: `self.headers.insert(key, value)`. -/
def Response.header (r : Response) (k v : String) : Response :=
  { r with headers := r.headers ++ [(k, v)] }

/-- Model of `Response::json`: the argument is the `serde_json` serialization of the
payload (serialization of the concrete payloads in scope never fails). -/
def Response.json (r : Response) (s : String) : Response :=
  { r with body := s, headers := r.headers ++ [("Content-Type", "application/json")] }

/-- The fields of `Request` (`src/request.rs`) that the dispatch core reads
or writes: method, `uri.path()`, headers, and the path-parameter map
(modelled as its insertion sequence).  The remaining fields (query, bodies,
user identity, session) are never touched by the functions modelled here. -/
structure Request where
  method : Method
  path : String
  headers : List (String × String)
  params : List (String × String)
deriving DecidableEq, Repr

/-! ## Path-template compiler (`Route::path_to_regex`) -/

/-- One token of the compiled pattern: a literal character (escaped or not,
it matches exactly itself), a `([^/]+)` capture group, or a `(.*)` capture
group. -/
inductive PatTok where
  | lit (c : Char)
  | seg
  | wild
deriving DecidableEq, Repr

/-- The character class accepted into a parameter name after `:`
(`next_ch.is_alphanumeric() || next_ch == '_'`; templates in scope are
ASCII, so ASCII alphanumerics suffice). -/
def isParamChar (c : Char) : Bool :=
  c.isAlphanum || c = '_'

/-- Recover the maximal run of literal-character tokens that are parameter
name characters, together with the remaining tokens.  Used to reconstruct
the inner name-collecting loop of the source scanner when the template is
folded from the right. -/
def popName : List PatTok → List Char × List PatTok
  | PatTok.lit c :: ts =>
      if isParamChar c then
        let r := popName ts
        (c :: r.1, r.2)
      else ([], PatTok.lit c :: ts)
  | ts => ([], ts)

/-- One step of the scanner, processing the template right to left: `:`
converts the following run of name characters (already emitted as literal
tokens by the steps to its right) into a `([^/]+)` group with that name,
`*` emits `(.*)`, every other character (escaped or not in the source)
is a literal. -/
def pathStep (c : Char) (acc : List PatTok × List String) :
    List PatTok × List String :=
  match c with
  | ':' =>
      let r := popName acc.1
      (PatTok.seg :: r.2, r.1.asString :: acc.2)
  | '*' => (PatTok.wild :: acc.1, acc.2)
  | _ => (PatTok.lit c :: acc.1, acc.2)

/-- Model of `Route::path_to_regex`: the compiled matcher (as its token list) plus
the parameter names in declaration order.  Compilation is total; the
`Regex::new(..).unwrap()` in the source cannot fail because every
metacharacter is escaped. -/
def Route.path_to_regex (path : String) : List PatTok × List String :=
  path.toList.foldr pathStep ([], [])

/-! ## Matching (`Regex::captures` on the compiled pattern) -/

/-- Length of the maximal prefix a `[^/]` class can cover. -/
def nonSlashMax (xs : List Char) : Nat :=
  (xs.takeWhile (fun c => c ≠ '/')).length

/-- Length of the maximal prefix a `.` class can cover: `.` does not match
a newline with the crate's default flags. -/
def dotMax (xs : List Char) : Nat :=
  (xs.takeWhile (fun c => c ≠ '\n')).length

/-- Candidate capture lengths for `([^/]+)`, longest first (greedy), at
least one character. -/
def segCands (xs : List Char) : List Nat :=
  ((List.range (nonSlashMax xs)).reverse).map (fun n => n + 1)

/-- Candidate capture lengths for `(.*)`, longest first (greedy), possibly
zero characters. -/
def wildCands (xs : List Char) : List Nat :=
  (List.range (dotMax xs + 1)).reverse

/-- Backtracking over candidate capture lengths: try each length in order,
matching the rest of the pattern against the rest of the path, and return
the first success (the candidate order encodes the engine's priority). -/
def tryCands (f : List Char → Option (List String)) (xs : List Char) :
    List Nat → Option (List String)
  | [] => none
  | n :: ns =>
      match f (xs.drop n) with
      | some caps => some ((xs.take n).asString :: caps)
      | none => tryCands f xs ns

/-- Anchored match of a compiled pattern against a path, returning the list
of captured groups in group order on success.  The `^`/`$` anchors of the
source regex correspond to starting at the head and requiring the whole
character list to be consumed. -/
def matchToks : List PatTok → List Char → Option (List String)
  | [], [] => some []
  | [], _ :: _ => none
  | PatTok.lit _ :: _, [] => none
  | PatTok.lit c :: ts, x :: xs =>
      if x = c then matchToks ts xs else none
  | PatTok.seg :: ts, xs => tryCands (matchToks ts) xs (segCands xs)
  | PatTok.wild :: ts, xs => tryCands (matchToks ts) xs (wildCands xs)

/-! ## Route and Router (`src/router.rs`) -/

/-- A `Handler` (`src/handler.rs`): asynchronously turns a `Request` into
`Result<Response, Box<dyn Error>>`.  Handlers are modelled as pure state
transformers over an execution trace so that execution order is
observable. -/
def HandlerFn : Type :=
  Request → List String → List String × Except DynError Response

/-- A `Middleware` (`src/middleware/mod.rs`): receives the request and the
`next` handler. -/
def MiddlewareFn : Type :=
  Request → HandlerFn → List String → List String × Except DynError Response

/-- The `MiddlewareHandler` helper struct of `src/router.rs`: its `Handler`
impl calls `middleware.handle(req, next)`. -/
def MiddlewareHandler (m : MiddlewareFn) (next : HandlerFn) : HandlerFn :=
  fun req log => m req next log

structure Route where
  path : String
  method : Method
  toks : List PatTok
  param_names : List String
  handler : HandlerFn

/-- Model of `Route::new`. -/
def Route.new (method : Method) (path : String) (handler : HandlerFn) : Route :=
  let r := Route.path_to_regex path
  { path := path, method := method, toks := r.1, param_names := r.2,
    handler := handler }

/-- The parameter map built by `Route::matches` on success: for each
`(i, name)` in `param_names.enumerate()`, insert the capture of group
`i + 1` when that group exists (group `i` of the capture list, which lists
groups `1..`). -/
def buildParams (names : List String) (caps : List String) :
    List (String × String) :=
  names.enum.filterMap (fun p => (caps.get? p.1).map (fun c => (p.2, c)))

/-- Model of `Route::matches`: `None` on method mismatch, otherwise run the compiled
regex and zip parameter names with capture groups. -/
def Route.matches (r : Route) (method : Method) (path : String) :
    Option (List (String × String)) :=
  if r.method ≠ method then none
  else
    match matchToks r.toks path.toList with
    | some caps => some (buildParams r.param_names caps)
    | none => none

structure Router where
  routes : List Route
  middleware : List MiddlewareFn

/-- Model of `Router::new`. -/
def Router.new : Router := { routes := [], middleware := [] }

/-- Model of `Router::get`. -/
def Router.get (r : Router) (path : String) (h : HandlerFn) : Router :=
  { r with routes := r.routes ++ [Route.new Method.GET path h] }

/-- Model of `Router::post`. -/
def Router.post (r : Router) (path : String) (h : HandlerFn) : Router :=
  { r with routes := r.routes ++ [Route.new Method.POST path h] }

/-- Model of `Router::put`. -/
def Router.put (r : Router) (path : String) (h : HandlerFn) : Router :=
  { r with routes := r.routes ++ [Route.new Method.PUT path h] }

/-- Model of `Router::delete`. -/
def Router.delete (r : Router) (path : String) (h : HandlerFn) : Router :=
  { r with routes := r.routes ++ [Route.new Method.DELETE path h] }

/-- Model of `Router::use_middleware`. -/
def Router.use_middleware (r : Router) (m : MiddlewareFn) : Router :=
  { r with middleware := r.middleware ++ [m] }

/-- The route-selection loop of `Router::handle_request`: first route, in
registration order, whose `matches` succeeds, together with the extracted
parameters. -/
def findRoute : List Route → Method → String →
    Option (Route × List (String × String))
  | [], _, _ => none
  | r :: rs, m, p =>
      match r.matches m p with
      | some ps => some (r, ps)
      | none => findRoute rs m p

/-- The chain construction of `Router::handle_request`:
`middleware.iter().rev().fold(handler, |next, mw| MiddlewareHandler)`. -/
def buildChain (mws : List MiddlewareFn) (h : HandlerFn) : HandlerFn :=
  mws.reverse.foldl (fun next m => MiddlewareHandler m next) h

/-- Model of `Router::handle_request`: select the first matching route, overwrite
`req.params` with the extracted parameters, fold the middleware around the
route's handler and invoke the chain; when no route matches, return
`AppError::NotFound` naming the path. -/
def Router.handle_request (router : Router) (req : Request)
    (log : List String) : List String × Except DynError Response :=
  match findRoute router.routes req.method req.path with
  | some rp =>
      buildChain router.middleware rp.1.handler { req with params := rp.2 } log
  | none =>
      (log, Except.error (DynError.app
        (AppError.NotFound ("Route not found: " ++ req.path))))

/-! ## App dispatcher (`src/app.rs`) -/

/-- Model of `str::starts_with`, computed over the character list (Lean's own
`String.startsWith` does not reduce inside the kernel). -/
def strStartsWith (s p : String) : Bool :=
  p.toList.isPrefixOf s.toList

/-- The `StaticFiles` collaborator held by the App: the configured directory
and URL prefix string (`App::static_files(dir, prefix)` stores both in
`StaticFiles::new`), plus the file-serving behaviour of its `Handler` impl,
which performs filesystem I/O and is therefore kept abstract. -/
structure StaticCfg where
  dir : String
  pfx : String
  serve : HandlerFn

/-- The App (`src/app.rs`): router, optional static handler and the
injectable error-to-response conversion. -/
structure App where
  router : Router
  static_handler : Option StaticCfg
  error_handler : AppError → Except DynError Response

/-- Model of `App::static_files`. -/
def App.static_files (a : App) (dir pfx : String) (serve : HandlerFn) : App :=
  { a with static_handler := some { dir := dir, pfx := pfx, serve := serve } }

/-- The router arm of `App::handle`: invoke the Router and convert any
surfacing error through the installed error handler. -/
def App.routeAndConvert (a : App) (req : Request) (log : List String) :
    List String × Except DynError Response :=
  match a.router.handle_request req log with
  | (log2, Except.ok resp) => (log2, Except.ok resp)
  | (log2, Except.error e) => (log2, a.error_handler (toAppError e))

/-- Model of `App::handle` (the `Handler` impl in `src/app.rs`): when a static
handler is configured and the path starts with the literal string
`"/static"`, delegate to it; otherwise dispatch through the Router. -/
def App.handle (a : App) (req : Request) (log : List String) :
    List String × Except DynError Response :=
  match a.static_handler with
  | some cfg =>
      if strStartsWith req.path "/static" then cfg.serve req log
      else a.routeAndConvert req log
  | none => a.routeAndConvert req log

/-! ## RateLimiter middleware (`src/middleware/auth_guard.rs`) -/

/-- The configuration of `RateLimiter::new(max_requests, window_seconds)`.
The shared `requests` table lives behind a mutex; here it is threaded
explicitly as a value. -/
structure RateLimiter where
  max_requests : Nat
  window_seconds : Nat

/-- The mutex-guarded table: client key to `(count, window-start Instant)`.
Instants are modelled in whole seconds, so `duration_since(a).as_secs()`
is truncation-free subtraction. -/
abbrev RLTable := List (String × Nat × Nat)

/-- Model of `HashMap::get` on the rate-limit table. -/
def rlGet (t : RLTable) (k : String) : Option (Nat × Nat) :=
  (t.find? (fun p => p.1 = k)).map (fun p => p.2)

/-- Model of `HashMap` entry update on the rate-limit table: replace the entry when
the key is present, append it otherwise. -/
def rlSet (t : RLTable) (k : String) (v : Nat × Nat) : RLTable :=
  if (t.find? (fun p => p.1 = k)).isSome then
    t.map (fun p => if p.1 = k then (k, v) else p)
  else t ++ [(k, v)]

/-- The client key of `RateLimiter::handle`: `x-forwarded-for`, else
`x-real-ip`, else the sentinel `"unknown"`. -/
def clientKey (req : Request) : String :=
  match headerGet req.headers "x-forwarded-for" with
  | some v => v
  | none =>
      match headerGet req.headers "x-real-ip" with
      | some v => v
      | none => "unknown"

/-- The critical section of `RateLimiter::handle`: fetch or create the
entry (`or_insert((0, now))`), reset the count when the window has elapsed
(strictly more than `window_seconds` seconds since the window start),
increment, store, and report whether the incremented count exceeds the
maximum. -/
def rlStep (rl : RateLimiter) (t : RLTable) (key : String) (now : Nat) :
    RLTable × Bool :=
  let e := (rlGet t key).getD (0, now)
  let e2 := if now - e.2 > rl.window_seconds then (0, now) else e
  let c := e2.1 + 1
  (rlSet t key (c, e2.2), decide (c > rl.max_requests))

/-- The 429 response built on rejection: `TOO_MANY_REQUESTS` with a
`Retry-After` header holding the window length and a JSON error body. -/
def tooManyResponse (rl : RateLimiter) : Response :=
  ((Response.new.setStatus 429).header "Retry-After"
      (toString rl.window_seconds)).json
    "\x7b\"error\":\"Rate limit exceeded\"\x7d"

/-- Model of `RateLimiter::handle` (the `Middleware` impl): derive the client key,
run the critical section on the shared table, then either short-circuit
with the 429 response or forward to `next`. -/
def RateLimiter.handle (rl : RateLimiter) (t : RLTable) (req : Request)
    (now : Nat) (next : HandlerFn) (log : List String) :
    RLTable × (List String × Except DynError Response) :=
  let key := clientKey req
  let r := rlStep rl t key now
  if r.2 then (r.1, (log, Except.ok (tooManyResponse rl)))
  else (r.1, next req log)

/-! ## Instrumented handlers and middleware for the ordering claims -/

/-- A middleware that records `name-in`, forwards unchanged, and records
`name-out` — the recorded-trace middleware of the specification's ordering
contract. -/
def tracingMW (name : String) : MiddlewareFn :=
  fun req next log =>
    let r := next req (log ++ [name ++ "-in"])
    (r.1 ++ [name ++ "-out"], r.2)

/-- A terminal handler that records `H` and returns a fixed response. -/
def tracingH (resp : Response) : HandlerFn :=
  fun _ log => (log ++ ["H"], Except.ok resp)

/-- A middleware that records `name-in` and short-circuits with a fixed
response, never invoking `next`. -/
def shortMW (name : String) (resp : Response) : MiddlewareFn :=
  fun _ _ log => (log ++ [name ++ "-in"], Except.ok resp)

/-- The inbound half of the expected trace. -/
def insTrace (names : List String) : List String :=
  names.map (fun n => n ++ "-in")

/-- The outbound half of the expected trace (reverse order). -/
def outsTrace (names : List String) : List String :=
  (names.reverse).map (fun n => n ++ "-out")

/-- A terminal handler that records `tag` and echoes the path parameter
`k` of the request it received into the response body (`"MISSING"` when
the parameter is absent). -/
def paramEchoH (tag k : String) : HandlerFn :=
  fun req log =>
    (log ++ [tag],
     Except.ok { Response.new with body := (lookupLast req.params k).getD "MISSING" })

/-- A plain 200 handler that records nothing interesting. -/
def okH : HandlerFn := fun _ log => (log, Except.ok Response.new)

/-- The routers reachable through the builder surface of `src/router.rs`:
`Router::new` followed by any sequence of `get`, `post`, `put`, `delete`
and `use_middleware` calls. -/
inductive BuiltRouter : Router → Prop where
  | new : BuiltRouter Router.new
  | get (r : Router) (p : String) (h : HandlerFn) :
      BuiltRouter r → BuiltRouter (r.get p h)
  | post (r : Router) (p : String) (h : HandlerFn) :
      BuiltRouter r → BuiltRouter (r.post p h)
  | put (r : Router) (p : String) (h : HandlerFn) :
      BuiltRouter r → BuiltRouter (r.put p h)
  | delete (r : Router) (p : String) (h : HandlerFn) :
      BuiltRouter r → BuiltRouter (r.delete p h)
  | use_middleware (r : Router) (m : MiddlewareFn) :
      BuiltRouter r → BuiltRouter (r.use_middleware m)

/-- The route of the specification's `/users/:id` example. -/
def usersRoute : Route := Route.new Method.GET "/users/:id" okH

/-- The route of the wildcard examples. -/
def filesRoute : Route := Route.new Method.GET "/files/*" okH

/-- A route with the wildcard in a non-final position. -/
def midWildRoute : Route := Route.new Method.GET "/a/*/c" okH

/-- The router of the precedence example: `/a/:x` registered before
`/a/fixed`, with handlers that record which of them ran and echo the
`x` parameter. -/
def c2router : Router :=
  (Router.new.get "/a/:x" (paramEchoH "H1" "x")).get "/a/fixed" (paramEchoH "H2" "x")

/-- A request that arrives already carrying a parameter `pre ↦ old` whose
name is not a parameter of any route. -/
def c3req : Request :=
  { method := Method.GET, path := "/a/v", headers := [],
    params := [("pre", "old")] }

/-- A file-serving handler with a recognizable response. -/
def c5serve : HandlerFn :=
  fun _ log => (log, Except.ok { Response.new with body := "STATIC" })

/-- An app with no routes whose error handler passes the error through
unchanged (so the dispatch decision is visible in the result). -/
def c5base : App :=
  { router := { routes := [], middleware := [] },
    static_handler := none,
    error_handler := fun e => Except.error (DynError.app e) }

/-- The app of the static-dispatch counterexample: static assets configured
with URL prefix string `/assets`. -/
def c5app : App := c5base.static_files "public" "/assets" c5serve

/-- The rate limiter of the specification's example:
`RateLimiter::new(2, 60)`. -/
def c6rl : RateLimiter := { max_requests := 2, window_seconds := 60 }

/-- A request carrying a forwarded-for header, so its client key is the
header value. -/
def c6req : Request :=
  { method := Method.GET, path := "/", headers := [("x-forwarded-for", "1.2.3.4")],
    params := [] }

/-! ## Structural lemmas about the middleware fold -/

theorem buildChain_nil (h : HandlerFn) : buildChain [] h = h := rfl

theorem buildChain_cons (m : MiddlewareFn) (ms : List MiddlewareFn)
    (h : HandlerFn) :
    buildChain (m :: ms) h = MiddlewareHandler m (buildChain ms h) := by
  unfold buildChain
  rw [List.reverse_cons, List.foldl_append]
  rfl

theorem buildChain_append (ms ns : List MiddlewareFn) (h : HandlerFn) :
    buildChain (ms ++ ns) h = buildChain ms (buildChain ns h) := by
  induction ms with
  | nil => rfl
  | cons m ms ih => rw [List.cons_append, buildChain_cons, buildChain_cons, ih]

/-- A chain of trace-recording middleware around any handler records the
inbound half, runs the handler on the extended trace, and records the
outbound half in reverse order. -/
theorem chain_trace (names : List String) (h : HandlerFn) (req : Request) :
    ∀ log : List String,
      buildChain (names.map tracingMW) h req log =
        ((h req (log ++ insTrace names)).1 ++ outsTrace names,
         (h req (log ++ insTrace names)).2) := by
  induction names with
  | nil =>
      intro log
      simp [buildChain, insTrace, outsTrace]
  | cons n ns ih =>
      intro log
      rw [List.map_cons, buildChain_cons]
      show ((buildChain (ns.map tracingMW) h req (log ++ [n ++ "-in"])).1
              ++ [n ++ "-out"],
            (buildChain (ns.map tracingMW) h req (log ++ [n ++ "-in"])).2) = _
      rw [ih (log ++ [n ++ "-in"])]
      simp [insTrace, outsTrace, List.append_assoc]

/-- Lemma: `Router::handle_request` on a request whose first matching route is
`rt` with extracted parameters `ps`: the parameter map is overwritten and
the folded chain is invoked. -/
theorem handle_request_match (router : Router) (req : Request)
    (log : List String) (rt : Route) (ps : List (String × String))
    (hfind : findRoute router.routes req.method req.path = some (rt, ps)) :
    Router.handle_request router req log
      = buildChain router.middleware rt.handler { req with params := ps } log := by
  unfold Router.handle_request
  rw [hfind]

/-- Lemma: `Router::handle_request` when no route matches. -/
theorem handle_request_nomatch (router : Router) (req : Request)
    (log : List String)
    (hfind : findRoute router.routes req.method req.path = none) :
    Router.handle_request router req log
      = (log, Except.error (DynError.app
          (AppError.NotFound ("Route not found: " ++ req.path)))) := by
  unfold Router.handle_request
  rw [hfind]

/-- C1: for registered middleware `M1, …, Mn` (in that order) around the
selected route's handler `H`, `Router::handle_request` folds the middleware
list in reverse so that `M1` is outermost: on a non-short-circuiting request
the recorded trace is `M1-in, …, Mn-in, H, Mn-out, …, M1-out` with the
handler's response returned; and when one middleware short-circuits, no
inner middleware and not the handler run (their trace entries are absent),
while every outer middleware still runs its outbound half and the
short-circuit response is returned. -/
theorem c1_middleware_onion
    (names : List String) (routes : List Route) (req : Request) (rt : Route)
    (ps : List (String × String)) (resp : Response) (log : List String)
    (hfind : findRoute routes req.method req.path = some (rt, ps))
    (hh : rt.handler = tracingH resp) :
    Router.handle_request
        { routes := routes, middleware := names.map tracingMW } req log
      = (log ++ insTrace names ++ ["H"] ++ outsTrace names, Except.ok resp)
    ∧ ∀ (bef aft : List String) (s : String) (r : Response),
        Router.handle_request
          { routes := routes,
            middleware :=
              (bef.map tracingMW) ++ shortMW s r :: (aft.map tracingMW) }
          req log
        = (log ++ insTrace bef ++ [s ++ "-in"] ++ outsTrace bef,
           Except.ok r) := by
  constructor
  · rw [handle_request_match _ _ _ rt ps hfind]
    show buildChain (names.map tracingMW) rt.handler _ _ = _
    rw [chain_trace, hh]
    unfold tracingH
    simp [List.append_assoc]
  · intro bef aft s r
    rw [handle_request_match _ _ _ rt ps hfind]
    show buildChain (bef.map tracingMW ++ shortMW s r :: aft.map tracingMW)
        rt.handler _ _ = _
    rw [show shortMW s r :: aft.map tracingMW
          = [shortMW s r] ++ aft.map tracingMW from rfl,
        buildChain_append, buildChain_append, buildChain_cons, buildChain_nil]
    rw [chain_trace]
    unfold MiddlewareHandler shortMW
    simp [List.append_assoc]

/-- Witness for C1 at the specification's concrete example: middleware `M1`
then `M2` around handler `H`, on a matching GET request, record exactly
`M1-in, M2-in, H, M2-out, M1-out`. -/
theorem c1_witness :
    Router.handle_request
      { routes := [Route.new Method.GET "/" (tracingH Response.new)],
        middleware := ["M1", "M2"].map tracingMW }
      { method := Method.GET, path := "/", headers := [], params := [] } []
    = (["M1-in", "M2-in", "H", "M2-out", "M1-out"], Except.ok Response.new) := by
  have h := (c1_middleware_onion ["M1", "M2"]
    [Route.new Method.GET "/" (tracingH Response.new)]
    { method := Method.GET, path := "/", headers := [], params := [] }
    (Route.new Method.GET "/" (tracingH Response.new)) [] Response.new []
    rfl rfl).1
  exact h.trans rfl

/-- The route-selection loop returns the first route, in registration
order, that matches: every earlier route fails to match. -/
theorem findRoute_first (routes : List Route) (m : Method) (p : String)
    (rt : Route) (ps : List (String × String))
    (hfind : findRoute routes m p = some (rt, ps)) :
    ∃ bef aft, routes = bef ++ rt :: aft ∧ rt.matches m p = some ps ∧
      ∀ r' ∈ bef, r'.matches m p = none := by
  induction routes with
  | nil => simp [findRoute] at hfind
  | cons r rs ih =>
      simp only [findRoute] at hfind
      cases hm : r.matches m p with
      | some ps0 =>
          rw [hm] at hfind
          simp only [Option.some.injEq, Prod.mk.injEq] at hfind
          obtain ⟨h1, h2⟩ := hfind
          subst h1; subst h2
          exact ⟨[], rs, by simp, hm, by simp⟩
      | none =>
          rw [hm] at hfind
          obtain ⟨bef, aft, hsplit, hmatch, hnone⟩ := ih hfind
          refine ⟨r :: bef, aft, by rw [hsplit, List.cons_append], hmatch, ?_⟩
          intro r' hr'
          rcases List.mem_cons.mp hr' with rfl | h
          · exact hm
          · exact hnone r' h

/-- If no registered route has the request's method, the selection loop
finds nothing (a pattern matching only under another method does not
count). -/
theorem findRoute_method_ne (routes : List Route) (m : Method) (p : String)
    (h : ∀ rt ∈ routes, rt.method ≠ m) : findRoute routes m p = none := by
  induction routes with
  | nil => rfl
  | cons r rs ih =>
      have hr : r.matches m p = none := by
        unfold Route.matches
        rw [if_pos (h r (List.mem_cons_self r rs))]
      simp only [findRoute]
      rw [hr]
      exact ih (fun rt hrt => h rt (List.mem_cons_of_mem r hrt))

/-- C2: `Router::handle_request` selects the first route, in registration
order, whose method and pattern match (every earlier registered route fails
to match), and on the concrete instance `/a/:x` before `/a/fixed` a GET
request to `/a/fixed` runs the first route's handler with `x` bound to
`"fixed"` — the broad pattern shadows the narrower later one. -/
theorem c2_first_match_wins :
    (∀ (routes : List Route) (m : Method) (p : String) (rt : Route)
        (ps : List (String × String)),
        findRoute routes m p = some (rt, ps) →
        ∃ bef aft, routes = bef ++ rt :: aft ∧ rt.matches m p = some ps ∧
          ∀ r' ∈ bef, r'.matches m p = none)
    ∧ Router.handle_request c2router
        { method := Method.GET, path := "/a/fixed", headers := [], params := [] } []
      = (["H1"], Except.ok { status := 200, headers := [], body := "fixed" }) :=
  ⟨fun routes m p rt ps h => findRoute_first routes m p rt ps h, rfl⟩

/-- Witness for C2: on the concrete router, selection decomposes the route
list with the `/a/:x` route first, matching with `x ↦ fixed`, and no
earlier route. -/
theorem c2_witness :
    ∃ bef aft,
      c2router.routes
        = bef ++ (Route.new Method.GET "/a/:x" (paramEchoH "H1" "x")) :: aft
      ∧ (Route.new Method.GET "/a/:x" (paramEchoH "H1" "x")).matches
          Method.GET "/a/fixed" = some [("x", "fixed")]
      ∧ ∀ r' ∈ bef, r'.matches Method.GET "/a/fixed" = none :=
  c2_first_match_wins.1 c2router.routes Method.GET "/a/fixed" _ _ rfl

/-- Counterexample for C3: the request arrives with a pre-existing
parameter `pre ↦ old` whose name is not among the route's parameter names
(`["x"]`), yet the handler selected for `/a/:x` receives a parameter map
without it: `req.params = params` in `Router::handle_request` replaces the
map wholesale instead of merging. -/
theorem c3_counterexample :
    lookupLast c3req.params "pre" = some "old"
    ∧ "pre" ∉ (Route.new Method.GET "/a/:x" (paramEchoH "HC3" "pre")).param_names
    ∧ Router.handle_request
        { routes := [Route.new Method.GET "/a/:x" (paramEchoH "HC3" "pre")],
          middleware := [] }
        c3req []
      = (["HC3"], Except.ok { status := 200, headers := [], body := "MISSING" }) :=
  ⟨rfl, by decide, rfl⟩

/-- C3 (amended): when a route matches, the route-extracted parameters
replace the request's parameter map wholesale — the handler chain receives
exactly the extracted map, and every pre-existing parameter is discarded
whether or not its name collides with a route parameter name. -/
theorem c3_params_replaced (router : Router) (req : Request) (rt : Route)
    (ps p0 : List (String × String)) (log : List String)
    (hfind : findRoute router.routes req.method req.path = some (rt, ps)) :
    Router.handle_request router { req with params := p0 } log
      = buildChain router.middleware rt.handler { req with params := ps } log := by
  have h2 : findRoute router.routes ({ req with params := p0 } : Request).method
      ({ req with params := p0 } : Request).path = some (rt, ps) := hfind
  exact handle_request_match _ _ _ rt ps h2

/-- Witness for C3 (amended) at a concrete router and request. -/
theorem c3_witness :
    Router.handle_request
      { routes := [Route.new Method.GET "/a/:x" (paramEchoH "HC3" "pre")],
        middleware := [] }
      { method := Method.GET, path := "/a/v", headers := [],
        params := [("pre", "old")] } []
    = buildChain []
        (Route.new Method.GET "/a/:x" (paramEchoH "HC3" "pre")).handler
        { method := Method.GET, path := "/a/v", headers := [],
          params := [("x", "v")] } [] :=
  c3_params_replaced
    { routes := [Route.new Method.GET "/a/:x" (paramEchoH "HC3" "pre")],
      middleware := [] }
    { method := Method.GET, path := "/a/v", headers := [], params := [] }
    _ _ [("pre", "old")] [] rfl

/-- C4: for the compiled template `/users/:id`, matching `/users/42` yields
exactly `{id ↦ 42}`, `/users/42/extra` does not match (the matcher is
anchored at the end), `/users/` does not match (a named capture needs one
non-empty slash-free segment), and `/x/users/42` does not match (anchored
at the start — never a prefix or substring match). -/
theorem c4_users_id_matching :
    usersRoute.matches Method.GET "/users/42" = some [("id", "42")]
    ∧ usersRoute.matches Method.GET "/users/42/extra" = none
    ∧ usersRoute.matches Method.GET "/users/" = none
    ∧ usersRoute.matches Method.GET "/x/users/42" = none :=
  ⟨rfl, rfl, rfl, rfl⟩

/-- Counterexample for C5: the app configures static assets under the URL
prefix `/assets`, and the request path `/assets/logo.png` falls under that
prefix, yet `App::handle` sends the request through the Router (yielding
its not-found error), not to the static handler; conversely a path under
the literal `/static`, which is not under the configured prefix, is sent to
the static handler.  The dispatch test in `src/app.rs` is the hard-coded
string `"/static"`, not the configured prefix. -/
theorem c5_counterexample :
    c5app.static_handler.map (fun c => c.pfx) = some "/assets"
    ∧ strStartsWith "/assets/logo.png" "/assets" = true
    ∧ App.handle c5app
        { method := Method.GET, path := "/assets/logo.png", headers := [],
          params := [] } []
      ≠ c5serve
          { method := Method.GET, path := "/assets/logo.png", headers := [],
            params := [] } []
    ∧ App.handle c5app
        { method := Method.GET, path := "/assets/logo.png", headers := [],
          params := [] } []
      = ([], Except.error (DynError.app
          (AppError.NotFound "Route not found: /assets/logo.png")))
    ∧ strStartsWith "/static/img.png" "/assets" = false
    ∧ App.handle c5app
        { method := Method.GET, path := "/static/img.png", headers := [],
          params := [] } []
      = c5serve
          { method := Method.GET, path := "/static/img.png", headers := [],
            params := [] } [] := by
  refine ⟨rfl, by decide, by decide, rfl, by decide, rfl⟩

/-- C5 (amended): when a static handler is configured, the App dispatcher
routes a request to it exactly when the request's path starts with the
literal string `"/static"`; the prefix string supplied to
`App::static_files` (and the directory) play no role in the dispatch
decision, which is otherwise the Router path with error conversion. -/
theorem c5_static_literal (a : App) (dir1 dir2 p1 p2 : String)
    (serve : HandlerFn) (req : Request) (log : List String) :
    (App.handle (a.static_files dir1 p1 serve) req log
      = App.handle (a.static_files dir2 p2 serve) req log)
    ∧ (strStartsWith req.path "/static" = true →
        App.handle (a.static_files dir1 p1 serve) req log = serve req log)
    ∧ (strStartsWith req.path "/static" = false →
        App.handle (a.static_files dir1 p1 serve) req log
          = App.routeAndConvert a req log) := by
  refine ⟨?_, ?_, ?_⟩
  · cases h : strStartsWith req.path "/static" with
    | true => simp [App.handle, App.static_files, h]
    | false => simp [App.handle, App.static_files, h]; rfl
  · intro h
    simp [App.handle, App.static_files, h]
  · intro h
    simp [App.handle, App.static_files, h]
    rfl

/-- Witness for C5 (amended): with prefix `/assets` configured, a
`/static/...` path is served statically and an `/assets/...` path goes to
the Router. -/
theorem c5_witness :
    App.handle (c5base.static_files "public" "/assets" c5serve)
      { method := Method.GET, path := "/static/img.png", headers := [],
        params := [] } []
    = c5serve
        { method := Method.GET, path := "/static/img.png", headers := [],
          params := [] } []
    ∧ App.handle (c5base.static_files "public" "/assets" c5serve)
      { method := Method.GET, path := "/assets/logo.png", headers := [],
        params := [] } []
    = App.routeAndConvert c5base
        { method := Method.GET, path := "/assets/logo.png", headers := [],
          params := [] } [] :=
  ⟨(c5_static_literal c5base "public" "public" "/assets" "/assets" c5serve
      { method := Method.GET, path := "/static/img.png", headers := [],
        params := [] } []).2.1 (by decide),
   (c5_static_literal c5base "public" "public" "/assets" "/assets" c5serve
      { method := Method.GET, path := "/assets/logo.png", headers := [],
        params := [] } []).2.2 (by decide)⟩

/-- Lemma: `RateLimiter::handle` rephrased through its critical section. -/
theorem RateLimiter.handle_eq (rl : RateLimiter) (t : RLTable) (req : Request)
    (now : Nat) (next : HandlerFn) (log : List String) :
    RateLimiter.handle rl t req now next log
      = (if (rlStep rl t (clientKey req) now).2 then
          ((rlStep rl t (clientKey req) now).1,
            (log, Except.ok (tooManyResponse rl)))
        else ((rlStep rl t (clientKey req) now).1, next req log)) := rfl

/-- C6: with `RateLimiter::new(2, 60)` and a fresh table, three requests
from the same client key at instants `t1, t2, t3` inside the window opened
at `t1` forward the first two and short-circuit the third with a 429
response carrying a `Retry-After: 60` hint; a request at `t4`, after the
window has elapsed, is forwarded again and the stored counter for the key
is `1`. -/
theorem c6_rate_limiter (req : Request) (t1 t2 t3 t4 : Nat)
    (next : HandlerFn) (log : List String)
    (hw2 : t2 - t1 ≤ 60) (hw3 : t3 - t1 ≤ 60) (hw4 : t4 - t1 > 60) :
    RateLimiter.handle c6rl [] req t1 next log
      = ([(clientKey req, 1, t1)], next req log)
    ∧ RateLimiter.handle c6rl [(clientKey req, 1, t1)] req t2 next log
      = ([(clientKey req, 2, t1)], next req log)
    ∧ RateLimiter.handle c6rl [(clientKey req, 2, t1)] req t3 next log
      = ([(clientKey req, 3, t1)], (log, Except.ok (tooManyResponse c6rl)))
    ∧ (tooManyResponse c6rl).status = 429
    ∧ lookupLast (tooManyResponse c6rl).headers "Retry-After" = some "60"
    ∧ RateLimiter.handle c6rl [(clientKey req, 3, t1)] req t4 next log
      = ([(clientKey req, 1, t4)], next req log)
    ∧ rlGet [(clientKey req, 1, t4)] (clientKey req) = some (1, t4) := by
  have hs1 : rlStep c6rl [] (clientKey req) t1 = ([(clientKey req, 1, t1)], false) := by
    simp [rlStep, rlGet, rlSet, List.find?, Nat.sub_self, c6rl]
  have hget1 : rlGet [(clientKey req, 1, t1)] (clientKey req) = some (1, t1) := by
    simp [rlGet, List.find?]
  have hs2 : rlStep c6rl [(clientKey req, 1, t1)] (clientKey req) t2
      = ([(clientKey req, 2, t1)], false) := by
    have hc : ¬ (60 < t2 - t1) := Nat.not_lt.mpr hw2
    unfold rlStep
    rw [hget1]
    simp [rlSet, List.find?, c6rl, hc]
  have hget2 : rlGet [(clientKey req, 2, t1)] (clientKey req) = some (2, t1) := by
    simp [rlGet, List.find?]
  have hs3 : rlStep c6rl [(clientKey req, 2, t1)] (clientKey req) t3
      = ([(clientKey req, 3, t1)], true) := by
    have hc : ¬ (60 < t3 - t1) := Nat.not_lt.mpr hw3
    unfold rlStep
    rw [hget2]
    simp [rlSet, List.find?, c6rl, hc]
  have hget3 : rlGet [(clientKey req, 3, t1)] (clientKey req) = some (3, t1) := by
    simp [rlGet, List.find?]
  have hs4 : rlStep c6rl [(clientKey req, 3, t1)] (clientKey req) t4
      = ([(clientKey req, 1, t4)], false) := by
    have hc : 60 < t4 - t1 := hw4
    unfold rlStep
    rw [hget3]
    simp [rlSet, List.find?, c6rl, hc]
  refine ⟨?_, ?_, ?_, rfl, rfl, ?_, by simp [rlGet, List.find?]⟩
  · rw [RateLimiter.handle_eq, hs1]; rfl
  · rw [RateLimiter.handle_eq, hs2]; rfl
  · rw [RateLimiter.handle_eq, hs3]; rfl
  · rw [RateLimiter.handle_eq, hs4]; rfl

/-- Witness for C6 at concrete instants 0, 10, 20, 100 and the forwarded
client key `1.2.3.4`. -/
theorem c6_witness :
    RateLimiter.handle c6rl [] c6req 0 okH []
      = ([(clientKey c6req, 1, 0)], okH c6req [])
    ∧ RateLimiter.handle c6rl [(clientKey c6req, 1, 0)] c6req 10 okH []
      = ([(clientKey c6req, 2, 0)], okH c6req [])
    ∧ RateLimiter.handle c6rl [(clientKey c6req, 2, 0)] c6req 20 okH []
      = ([(clientKey c6req, 3, 0)], ([], Except.ok (tooManyResponse c6rl)))
    ∧ (tooManyResponse c6rl).status = 429
    ∧ lookupLast (tooManyResponse c6rl).headers "Retry-After" = some "60"
    ∧ RateLimiter.handle c6rl [(clientKey c6req, 3, 0)] c6req 100 okH []
      = ([(clientKey c6req, 1, 100)], okH c6req [])
    ∧ rlGet [(clientKey c6req, 1, 100)] (clientKey c6req) = some (1, 100) :=
  c6_rate_limiter c6req 0 10 20 100 okH [] (by decide) (by decide) (by decide)

/-- Counterexample for C7: the template `/a/:x/b/:x` with a duplicated
parameter name registers without any failure (the compiler records both
occurrences), and on a successful match the value bound to `x` is the
capture of the LAST occurrence (`"2"`), not of the first (`"1"`): each
capture is inserted into the `HashMap` in template order, so the later
insertion overwrites the earlier one. -/
theorem c7_counterexample :
    (Route.new Method.GET "/a/:x/b/:x" okH).param_names = ["x", "x"]
    ∧ (Route.new Method.GET "/a/:x/b/:x" okH).matches Method.GET "/a/1/b/2"
        = some [("x", "1"), ("x", "2")]
    ∧ lookupLast [("x", "1"), ("x", "2")] "x" = some "2"
    ∧ lookupLast [("x", "1"), ("x", "2")] "x" ≠ some "1" :=
  ⟨rfl, rfl, rfl, by decide⟩

/-- Lemma: `HashMap::get` over an insertion sequence returns the value of the
last insertion with the key. -/
theorem lookupLast_filter (l : List (String × String)) (k : String) :
    lookupLast l k
      = ((l.filter (fun p => p.1 = k)).getLast?).map (fun p => p.2) := by
  induction l using List.reverseRecOn with
  | nil => rfl
  | append_singleton l a ih =>
      by_cases h : a.1 = k
      · show (((l ++ [a]).reverse).find? (fun p => p.1 = k)).map (fun p => p.2) = _
        rw [List.reverse_append, List.reverse_singleton, List.singleton_append,
          List.find?_cons_of_pos _ (by simp [h]), List.filter_append]
        simp [h, List.getLast?_concat]
      · show (((l ++ [a]).reverse).find? (fun p => p.1 = k)).map (fun p => p.2) = _
        rw [List.reverse_append, List.reverse_singleton, List.singleton_append,
          List.find?_cons_of_neg _ (by simp [h]), List.filter_append]
        simp [h]

/-- C7 (amended): a duplicated parameter name in a template is accepted
silently at registration (compilation is total, both occurrences are
recorded), and on a match the value bound to the duplicated name is the
capture of its LAST occurrence in the template: the parameter map is built
by inserting `(name, capture)` pairs in template order, and the lookup of a
key in such an insertion sequence returns the last pair carrying it.  At
the dispatch level, the handler for `/a/:x/b/:x` on `/a/1/b/2` observes
`x = 2`. -/
theorem c7_last_occurrence_wins :
    (Route.new Method.GET "/a/:x/b/:x" okH).param_names = ["x", "x"]
    ∧ (Route.new Method.GET "/a/:x/b/:x" okH).matches Method.GET "/a/1/b/2"
        = some [("x", "1"), ("x", "2")]
    ∧ (∀ (names caps : List String) (k : String),
        lookupLast (buildParams names caps) k
          = (((buildParams names caps).filter (fun p => p.1 = k)).getLast?).map
              (fun p => p.2))
    ∧ Router.handle_request
        { routes := [Route.new Method.GET "/a/:x/b/:x" (paramEchoH "H7" "x")],
          middleware := [] }
        { method := Method.GET, path := "/a/1/b/2", headers := [], params := [] }
        []
      = (["H7"], Except.ok { status := 200, headers := [], body := "2" }) :=
  ⟨rfl, rfl, fun names caps k => lookupLast_filter (buildParams names caps) k, rfl⟩

/-- C8: `Router::handle_request` is total (the model is a function; no
panic path exists), returns the not-found error naming the unmatched path
whenever route selection fails — in particular with zero registered routes,
and when every registered route has a different method than the request —
and, when a route does match, returns exactly what the middleware-wrapped
handler chain returns, so handler and middleware errors propagate unchanged
and the not-found error is the only error the Router itself originates. -/
theorem c8_router_not_found (router : Router) (req : Request)
    (log : List String) :
    (findRoute router.routes req.method req.path = none →
      Router.handle_request router req log
        = (log, Except.error (DynError.app
            (AppError.NotFound ("Route not found: " ++ req.path)))))
    ∧ (router.routes = [] →
      Router.handle_request router req log
        = (log, Except.error (DynError.app
            (AppError.NotFound ("Route not found: " ++ req.path)))))
    ∧ ((∀ rt ∈ router.routes, rt.method ≠ req.method) →
      Router.handle_request router req log
        = (log, Except.error (DynError.app
            (AppError.NotFound ("Route not found: " ++ req.path)))))
    ∧ (∀ (rt : Route) (ps : List (String × String)),
        findRoute router.routes req.method req.path = some (rt, ps) →
        Router.handle_request router req log
          = buildChain router.middleware rt.handler { req with params := ps } log) := by
  refine ⟨fun h => handle_request_nomatch _ _ _ h,
    fun h => handle_request_nomatch _ _ _ (by rw [h]; rfl),
    fun h => handle_request_nomatch _ _ _ (findRoute_method_ne _ _ _ h),
    fun rt ps h => handle_request_match _ _ _ rt ps h⟩

/-- Witness for C8: an empty router answers not-found, and so does a router
whose single route matches the path only under another method. -/
theorem c8_witness :
    Router.handle_request { routes := [], middleware := [] }
      { method := Method.GET, path := "/nope", headers := [], params := [] } []
      = ([], Except.error (DynError.app
          (AppError.NotFound "Route not found: /nope")))
    ∧ Router.handle_request
        { routes := [Route.new Method.POST "/nope" okH], middleware := [] }
        { method := Method.GET, path := "/nope", headers := [], params := [] } []
      = ([], Except.error (DynError.app
          (AppError.NotFound "Route not found: /nope"))) :=
  ⟨(c8_router_not_found { routes := [], middleware := [] }
      { method := Method.GET, path := "/nope", headers := [], params := [] }
      []).2.1 rfl,
   (c8_router_not_found
      { routes := [Route.new Method.POST "/nope" okH], middleware := [] }
      { method := Method.GET, path := "/nope", headers := [], params := [] }
      []).2.2.1
     (fun rt hrt => by
        rw [List.mem_singleton] at hrt
        subst hrt
        decide)⟩

/-- Every route registered through the builder surface carries one of the
methods GET, POST, PUT, DELETE — never OPTIONS. -/
theorem builtRouter_no_options (r : Router) (hb : BuiltRouter r) :
    ∀ rt ∈ r.routes, rt.method ≠ Method.OPTIONS := by
  induction hb with
  | new => intro rt hrt; simp [Router.new] at hrt
  | get r p h _ ih =>
      intro rt hrt
      simp only [Router.get] at hrt
      rcases List.mem_append.mp hrt with hm | hm
      · exact ih rt hm
      · rw [List.mem_singleton] at hm
        subst hm
        exact (by decide : Method.GET ≠ Method.OPTIONS)
  | post r p h _ ih =>
      intro rt hrt
      simp only [Router.post] at hrt
      rcases List.mem_append.mp hrt with hm | hm
      · exact ih rt hm
      · rw [List.mem_singleton] at hm
        subst hm
        exact (by decide : Method.POST ≠ Method.OPTIONS)
  | put r p h _ ih =>
      intro rt hrt
      simp only [Router.put] at hrt
      rcases List.mem_append.mp hrt with hm | hm
      · exact ih rt hm
      · rw [List.mem_singleton] at hm
        subst hm
        exact (by decide : Method.PUT ≠ Method.OPTIONS)
  | delete r p h _ ih =>
      intro rt hrt
      simp only [Router.delete] at hrt
      rcases List.mem_append.mp hrt with hm | hm
      · exact ih rt hm
      · rw [List.mem_singleton] at hm
        subst hm
        exact (by decide : Method.DELETE ≠ Method.OPTIONS)
  | use_middleware r m _ ih =>
      intro rt hrt
      exact ih rt hrt

/-- C9: when no route matches, the middleware chain is never constructed or
invoked — the result is the not-found error with the execution trace left
untouched, identically for every registered middleware list; in particular,
since the builder surface registers only GET/POST/PUT/DELETE routes, every
OPTIONS request against a builder-built router receives the not-found error
without any middleware (Logger, Cors, AuthGuard, RateLimiter, …) running. -/
theorem c9_unmatched_skips_middleware (routes : List Route) (req : Request)
    (log : List String) :
    (findRoute routes req.method req.path = none →
      ∀ mws : List MiddlewareFn,
        Router.handle_request { routes := routes, middleware := mws } req log
          = (log, Except.error (DynError.app
              (AppError.NotFound ("Route not found: " ++ req.path)))))
    ∧ (∀ r : Router, BuiltRouter r → req.method = Method.OPTIONS →
        Router.handle_request r req log
          = (log, Except.error (DynError.app
              (AppError.NotFound ("Route not found: " ++ req.path))))) := by
  constructor
  · intro h mws
    exact handle_request_nomatch _ _ _ h
  · intro r hb hm
    refine handle_request_nomatch _ _ _ (findRoute_method_ne _ _ _ ?_)
    intro rt hrt
    rw [hm]
    exact builtRouter_no_options r hb rt hrt

/-- Witness for C9: an OPTIONS request against a builder-built router with
a GET route and a tracing middleware gets the not-found error with an
untouched trace, and so does a request against an empty route table under a
tracing middleware. -/
theorem c9_witness :
    Router.handle_request ((Router.new.get "/a" okH).use_middleware (tracingMW "M1"))
      { method := Method.OPTIONS, path := "/a", headers := [], params := [] } []
      = ([], Except.error (DynError.app (AppError.NotFound "Route not found: /a")))
    ∧ Router.handle_request { routes := [], middleware := [tracingMW "M1"] }
      { method := Method.GET, path := "/a", headers := [], params := [] } []
      = ([], Except.error (DynError.app (AppError.NotFound "Route not found: /a"))) :=
  ⟨(c9_unmatched_skips_middleware
      ((Router.new.get "/a" okH).use_middleware (tracingMW "M1")).routes
      { method := Method.OPTIONS, path := "/a", headers := [], params := [] }
      []).2
      ((Router.new.get "/a" okH).use_middleware (tracingMW "M1"))
      (BuiltRouter.use_middleware _ _ (BuiltRouter.get _ _ _ BuiltRouter.new))
      rfl,
   (c9_unmatched_skips_middleware []
      { method := Method.GET, path := "/a", headers := [], params := [] }
      []).1 rfl [tracingMW "M1"]⟩

/-- Counterexample for C10: the wildcard group is compiled as `(.*)` with
the default flags of the `regex` crate, under which `.` does not match a
newline — so it does not accept arbitrary characters: `/files/a\nb` fails
to match the template `/files/*`. -/
theorem c10_counterexample :
    filesRoute.matches Method.GET "/files/a\nb" = none := rfl

/-- C10 (amended): the wildcard capture matches an empty remainder — for
`/files/*` the path `/files/` matches with the wildcard group capturing the
empty string (the group accepts any characters other than newline,
including none) — it captures a trailing remainder across slashes, and it
is honored at any position in the template, not only as a final segment. -/
theorem c10_wildcard_matches :
    filesRoute.matches Method.GET "/files/" = some []
    ∧ matchToks filesRoute.toks "/files/".toList = some [""]
    ∧ matchToks filesRoute.toks "/files/a/b/c.txt".toList = some ["a/b/c.txt"]
    ∧ midWildRoute.matches Method.GET "/a/b1/b2/c" = some []
    ∧ matchToks midWildRoute.toks "/a/b1/b2/c".toList = some ["b1/b2"] :=
  ⟨rfl, rfl, rfl, rfl, rfl⟩
